import Mathlib

/-!
Verification development for the TargetScriptAI content pipeline
(`app/agents/*.py`): a shallow embedding of the workflow state model, the
four stage implementations, the structured-output extraction helpers and
the LangGraph orchestrator wiring, together with theorems settling the
spec claims about them.

Python strings are modelled as lists of Unicode code points (`Str`),
Python dicts with string keys as ordered association lists (`PyDict`),
and JSON values as the inductive `JVal`.  External collaborators (the LLM
transport and the persona storage service) are modelled as an explicit
environment record `Env`; each pipeline run is a pure function of the
initial state and that environment.  A raised Python exception is
modelled as the `.error` case of `Except String _`.
-/

set_option autoImplicit false

namespace TargetScriptAI

/-- Python `str` modelled as the list of its code points. -/
abbrev Str := List Char

/-- Coerce a Lean string literal to the `Str` model. -/
def str (s : String) : Str := s.data

/-- Characters treated as whitespace by Python `str.strip()` / `str.split()`
(ASCII whitespace; the exotic Unicode space classes are not exercised by
any theorem below). -/
def isPyWs (c : Char) : Bool :=
  c = ' ' || c = '\t' || c = '\n' || c = '\r' || c = '\x0b' || c = '\x0c'

/-- Python `s.strip()`. -/
def pyStrip (s : Str) : Str :=
  ((s.dropWhile isPyWs).reverse.dropWhile isPyWs).reverse

/-- Python `s.lower()` (ASCII case folding). -/
def pyLower (s : Str) : Str := s.map Char.toLower

/-- Python `s.find(c)` for a single-character needle, `none` for `-1`. -/
def pyFindChar (s : Str) (c : Char) : Option Nat :=
  s.findIdx? (· = c)

/-- Python `s.rfind(c)` for a single-character needle, `none` for `-1`. -/
def pyRFindChar (s : Str) (c : Char) : Option Nat :=
  (s.reverse.findIdx? (· = c)).map (fun i => s.length - 1 - i)

/-- First index at which `pat` occurs as a contiguous substring of `s`. -/
def findSub (s pat : Str) : Option Nat :=
  (List.range (s.length + 1)).find? (fun i => pat.isPrefixOf (s.drop i))

/-- Fuel-driven worker for `pyReplace`; the fuel is an upper bound on the
number of characters consumed, so `s.length` fuel is always enough for a
non-empty pattern. -/
def pyReplaceGo (pat rep : Str) : Nat → Str → Str
  | _, [] => []
  | 0, s => s
  | fuel + 1, c :: rest =>
    if pat.isPrefixOf (c :: rest) then
      rep ++ pyReplaceGo pat rep fuel ((c :: rest).drop pat.length)
    else
      c :: pyReplaceGo pat rep fuel rest

/-- Python `s.replace(pat, rep)`: every non-overlapping occurrence,
scanning left to right.  (The empty-pattern case is never exercised by
the embedded code; it is mapped to the identity.) -/
def pyReplace (s pat rep : Str) : Str :=
  if pat = [] then s else pyReplaceGo pat rep s.length s

/-- Fuel-driven worker for `pySplit`. -/
def pySplitGo (sep : Str) : Nat → Str → List Str
  | 0, s => [s]
  | fuel + 1, s =>
    match findSub s sep with
    | none => [s]
    | some i => s.take i :: pySplitGo sep fuel (s.drop (i + sep.length))

/-- Python `s.split(sep)` for a non-empty separator (keeps empty pieces). -/
def pySplit (s sep : Str) : List Str :=
  if sep = [] then [s] else pySplitGo sep s.length s

/-- Python `s.split(sep, 1)[1] if sep in s else s`: everything after the
first occurrence of `sep`, or `s` itself when `sep` does not occur. -/
def afterFirst (s sep : Str) : Str :=
  match findSub s sep with
  | some i => s.drop (i + sep.length)
  | none => s

/-- Python `len(s.split())`: the number of maximal non-whitespace runs. -/
def pyWordCount (s : Str) : Nat :=
  ((s.splitOnP isPyWs).filter (· ≠ [])).length

/-- Python 3 `round(n / d)` for natural `n` and positive `d`: round half to
even (the quotients produced in this code base are exactly representable
at the halfway points, so the float detour of the source is faithfully
captured by rational rounding). -/
def pyRoundDiv (n d : Nat) : Nat :=
  let q := n / d
  let r := n % d
  if 2 * r < d then q
  else if 2 * r > d then q + 1
  else if q % 2 = 0 then q else q + 1

/-! ## JSON values and Python dicts -/

/-- JSON values as produced by `json.loads` (numbers restricted to
integers, which is all the embedded prompts and tests exercise). -/
inductive JVal where
  | null : JVal
  | bool : Bool → JVal
  | num : Int → JVal
  | s : Str → JVal
  | arr : List JVal → JVal
  | obj : List (String × JVal) → JVal

/-- A Python dict with string keys, in insertion order. -/
abbrev PyDict := List (String × JVal)

/-- Python `d.get(k)`: the value at the first (for well-formed dicts the
only) occurrence of the key. -/
def dictGet : PyDict → String → Option JVal
  | [], _ => none
  | p :: rest, k => if p.1 = k then some p.2 else dictGet rest k

/-- Python `k in d`. -/
def dictHasKey : PyDict → String → Bool
  | [], _ => false
  | p :: rest, k => p.1 = k || dictHasKey rest k

/-- Python `d[k] = v`: replace the value at an existing key in place,
otherwise append the new binding at the end (insertion order). -/
def dictInsert (d : PyDict) (k : String) (v : JVal) : PyDict :=
  if dictHasKey d k then
    d.map (fun p => if p.1 = k then (k, v) else p)
  else
    d ++ [(k, v)]

/-- Python `d.update(u)`: key-level overwrite of `d` by `u`. -/
def dictUpdate (d u : PyDict) : PyDict :=
  u.foldl (fun acc p => dictInsert acc p.1 p.2) d

/-- Python truthiness of a JSON value (`bool(v)`). -/
def jvalTruthy : JVal → Bool
  | .null => false
  | .bool b => b
  | .num n => n ≠ 0
  | .s v => v ≠ []
  | .arr xs => ¬ xs.isEmpty
  | .obj fs => ¬ fs.isEmpty

/-- Python `str(v)` restricted to the scalar values the pipeline actually
interpolates into f-strings (container reprs are not exercised by any
theorem below and are given a placeholder rendering). -/
def jvalToPyStr : JVal → Str
  | .null => str "None"
  | .bool true => str "True"
  | .bool false => str "False"
  | .num n => (toString n).data
  | .s v => v
  | .arr _ => str "<list>"
  | .obj _ => str "<dict>"

/-- Look a key up inside a `JVal` that is expected to be an object. -/
def jGet (v : JVal) (k : String) : Option JVal :=
  match v with
  | .obj fs => dictGet fs k
  | _ => none

/-- Python `v[:n]` on a JSON list (other shapes are never sliced by the
runs considered here and are returned unchanged). -/
def jTake (n : Nat) : JVal → JVal
  | .arr xs => .arr (xs.take n)
  | v => v

/-- The string payload of a JSON value defaulting to `""`, as used by the
`content.get('introduction', '')` idiom followed by f-string
interpolation. -/
def jStrD (d : PyDict) (k : String) : Str :=
  match dictGet d k with
  | some v => jvalToPyStr v
  | none => []

/-! ## A model of `json.loads`

Restricted to the JSON fragment the pipeline exchanges: objects, arrays,
double-quoted strings with the common escapes, integer numbers, `true`,
`false`, `null`.  Inputs outside the fragment (floats, `\uXXXX` escapes)
are mapped to a parse failure; no theorem below depends on them.
Duplicate object keys follow Python: the last occurrence wins, so parsed
objects always have pairwise distinct keys. -/

/-- JSON insignificant whitespace. -/
def isJsonWs (c : Char) : Bool :=
  c = ' ' || c = '\t' || c = '\n' || c = '\r'

/-- Parse the body of a JSON string after the opening quote; returns the
decoded characters and the rest of the input. -/
def parseStrChars : Str → Except Unit (Str × Str)
  | [] => .error ()
  | '"' :: rest => .ok ([], rest)
  | '\\' :: e :: rest => do
    let c ← match e with
      | '"' => .ok '"'
      | '\\' => .ok '\\'
      | '/' => .ok '/'
      | 'n' => .ok '\n'
      | 't' => .ok '\t'
      | 'r' => .ok '\r'
      | 'b' => .ok '\x08'
      | 'f' => .ok '\x0c'
      | _ => .error ()
    let (cs, rest') ← parseStrChars rest
    .ok (c :: cs, rest')
  | c :: rest => do
    let (cs, rest') ← parseStrChars rest
    .ok (c :: cs, rest')

/-- Parse an integer JSON number (optional minus, then digits). -/
def parseNum (s : Str) : Except Unit (Int × Str) :=
  let (neg, s') := match s with
    | '-' :: rest => (true, rest)
    | _ => (false, s)
  let digits := s'.takeWhile Char.isDigit
  let rest := s'.dropWhile Char.isDigit
  if digits = [] then .error ()
  else
    match rest with
    | '.' :: _ => .error ()
    | 'e' :: _ => .error ()
    | 'E' :: _ => .error ()
    | _ =>
      let n : Nat := digits.foldl (fun acc c => acc * 10 + (c.toNat - '0'.toNat)) 0
      .ok (if neg then -(n : Int) else (n : Int), rest)

mutual

/-- Parse one JSON value (fuel-driven recursion). -/
def parseVal : Nat → Str → Except Unit (JVal × Str)
  | 0, _ => .error ()
  | fuel + 1, s =>
    match s.dropWhile isJsonWs with
    | '{' :: rest => parseObjBody fuel rest []
    | '[' :: rest => parseArrBody fuel rest []
    | '"' :: rest => (parseStrChars rest).map (fun p => (.s p.1, p.2))
    | 't' :: 'r' :: 'u' :: 'e' :: rest => .ok (.bool true, rest)
    | 'f' :: 'a' :: 'l' :: 's' :: 'e' :: rest => .ok (.bool false, rest)
    | 'n' :: 'u' :: 'l' :: 'l' :: rest => .ok (.null, rest)
    | s' => (parseNum s').map (fun p => (.num p.1, p.2))

/-- Parse the members of an object after `{` (or after a comma). -/
def parseObjBody : Nat → Str → PyDict → Except Unit (JVal × Str)
  | 0, _, _ => .error ()
  | fuel + 1, s, acc =>
    match s.dropWhile isJsonWs with
    | '}' :: rest => if acc.isEmpty then .ok (.obj acc, rest) else .error ()
    | '"' :: rest => do
      let (k, rest₁) ← parseStrChars rest
      match rest₁.dropWhile isJsonWs with
      | ':' :: rest₂ => do
        let (v, rest₃) ← parseVal fuel rest₂
        let acc' := dictInsert acc (String.mk k) v
        match rest₃.dropWhile isJsonWs with
        | ',' :: rest₄ => parseObjBody fuel rest₄ acc'
        | '}' :: rest₄ => .ok (.obj acc', rest₄)
        | _ => .error ()
      | _ => .error ()
    | _ => .error ()

/-- Parse the elements of an array after `[` (or after a comma). -/
def parseArrBody : Nat → Str → List JVal → Except Unit (JVal × Str)
  | 0, _, _ => .error ()
  | fuel + 1, s, acc =>
    match s.dropWhile isJsonWs with
    | ']' :: rest => if acc.isEmpty then .ok (.arr acc, rest) else .error ()
    | s' => do
      let (v, rest₁) ← parseVal fuel s'
      match rest₁.dropWhile isJsonWs with
      | ',' :: rest₂ => parseArrBody fuel rest₂ (acc ++ [v])
      | ']' :: rest₂ => .ok (.arr (acc ++ [v]), rest₂)
      | _ => .error ()

end

/-- Model of Python `json.loads` on the fragment described above. -/
def jsonLoads (s : Str) : Except Unit JVal := do
  let (v, rest) ← parseVal (4 * s.length + 16) s
  if rest.dropWhile isJsonWs = [] then .ok v else .error ()

/-! ## Structured-output extraction

`_extract_json_from_response` is textually identical in
`persona_agent.py`, `strategy_agent.py` and `creative_agent.py`; it is
embedded once as `extract_json_from_response_psc`.  The QA agent has its
own variant with extra pre-processing, embedded as
`QAAgent.extract_json_from_response`.

The markdown-fence pattern in the source is the raw string `r'``````'`:
a literal run of six backticks with **no capture group**.  When it
matches, `match.group(1)` raises `IndexError`, which none of the
surrounding `except (json.JSONDecodeError, ValueError)` handlers catch;
the exception is modelled as the `.error` case. -/

/-- The six-backtick literal that the source uses as its "markdown code
block" regex. -/
def sixBackticks : Str := str "``````"

/-- Python `pat in s` / a successful `re.search` for a literal pattern. -/
def strContains (s pat : Str) : Bool := (findSub s pat).isSome

/-- Shared `_extract_json_from_response` of the persona, strategy and
creative agents (`persona_agent.py` lines 54-79 and its two verbatim
copies). -/
def extract_json_from_response_psc (content : Str) : Except String Str :=
  if content = [] then .ok []
  else
    let content := pyStrip content
    if (str "\x7b").isPrefixOf content ∧ (str "\x7d").isSuffixOf content then
      .ok content
    else if strContains content sixBackticks then
      -- `re.search(r'``````', ...)` matched but the pattern has no group 1.
      .error "IndexError: no such group"
    else
      match pyFindChar content '{', pyRFindChar content '}' with
      | some first, some last =>
        if first < last then .ok ((content.drop first).take (last + 1 - first))
        else .ok content
      | _, _ => .ok content

namespace QAAgent

/-- The accidental pattern of `qa_agent.py` lines 75/100: the tokenizer
reads `replace(""", '"').replace(""", '"')` as a single call replacing
the literal text between the triple quotes by a double quote. -/
def accidentalPattern : Str := str ", '\"').replace("

/-- Pre-extraction cleanup of `qa_agent.py` lines 70-75: drop `\r`,
replace `\t` by a space, two no-op apostrophe replacements, and the
accidental replacement described above. -/
def cleanupPre (content : Str) : Str :=
  let content := pyReplace (pyReplace content (str "\r") []) (str "\t") (str " ")
  let content := pyReplace (pyReplace content (str "'") (str "'")) (str "'") (str "'")
  pyReplace content accidentalPattern (str "\"")

/-- The brace-span post-processing of `qa_agent.py` lines 99-100 (same
no-ops plus the accidental replacement). -/
def cleanupSpan (json_content : Str) : Str :=
  let json_content := pyReplace (pyReplace json_content (str "'") (str "'")) (str "'") (str "'")
  pyReplace json_content accidentalPattern (str "\"")

/-- `QAAgent._extract_json_from_response` (`qa_agent.py` lines 63-104).
Both entries of its `json_patterns` list are the same six-backtick
literal without a capture group. -/
def extract_json_from_response (content : Str) : Except String Str :=
  if content = [] then .ok []
  else
    let content := cleanupPre (pyStrip content)
    if (str "\x7b").isPrefixOf content ∧ (str "\x7d").isSuffixOf content then
      .ok content
    else if strContains content sixBackticks then
      .error "IndexError: no such group"
    else
      match pyFindChar content '{', pyRFindChar content '}' with
      | some first, some last =>
        if first < last then
          .ok (cleanupSpan ((content.drop first).take (last + 1 - first)))
        else .ok content
      | _, _ => .ok content

/-- The accidental key of `_clean_json_string`'s replacement table: the
tokenizer reads the two rows `''': "'",` as a triple-quoted string
spanning the line break, so the table maps the literal text
`: "'",<newline><12 spaces>` to a single apostrophe.  The intended
smart-quote rows survive only as the identity mapping `'"' -> '"'`. -/
def accidentalKey : Str := str ": \"'\",\n            "

/-- A C0/C1 control character (`[\x00-\x1f\x7f-\x9f]`). -/
def isCtrlC0C1 (c : Char) : Bool :=
  c.toNat ≤ 0x1f || (0x7f ≤ c.toNat && c.toNat ≤ 0x9f)

/-- `QAAgent._clean_json_string` (`qa_agent.py` lines 312-336): the
replacement table applied in order, then every C0/C1 control character
replaced by a space. -/
def clean_json_string (s : Str) : Str :=
  let s := pyReplace s (str "\"") (str "\"")
  let s := pyReplace s accidentalKey (str "'")
  let s := pyReplace s (str "…") (str "...")
  let s := pyReplace s (str "–") (str "-")
  let s := pyReplace s (str "—") (str "-")
  let s := pyReplace s (str "\u00a0") (str " ")
  let s := pyReplace s (str "\u2028") (str " ")
  let s := pyReplace s (str "\u2029") (str " ")
  s.map (fun c => if isCtrlC0C1 c then ' ' else c)

end QAAgent

/-! ## Workflow data model (`base.py`) -/

/-- Python `bool(d.get(k))`: truthiness of an optional lookup. -/
def dictTruthy (d : PyDict) (k : String) : Bool :=
  match dictGet d k with
  | some v => jvalTruthy v
  | none => false

/-- One entry of the `errors` list:
`{"agent": ..., "error": ..., "timestamp": ...}`. -/
structure ErrEntry where
  agent : String
  error : Str
  timestamp : Str
deriving Repr, DecidableEq

/-- One LLM transport response, per the `llm_service` contract consumed by
`BaseAgent._generate_response` (`{content, success, model_name, tokens}`
on success, `{success: false, error}` on failure). -/
structure LLMResult where
  success : Bool
  content : Str := []
  error : Option Str := none
  tokens : PyDict := []
  model_name : Option Str := none

/-- A stored persona as the stages consume it: its `model_dump()` dict and
its `name`. -/
structure Persona where
  dump : PyDict
  name : Str

/-- The environment of one pipeline run: the persona storage lookup, the
five LLM responses the run can consume (one per stage plus the refinement
call), and the wall clock used for error timestamps.  All are external
collaborators (spec section 6). -/
structure Env where
  now : Str
  get_persona_by_id : Str → Option Persona
  personaResponse : LLMResult
  strategyResponse : LLMResult
  creativeResponse : LLMResult
  qaResponse : LLMResult
  improveResponse : LLMResult

/-- The `AgentState` TypedDict of `base.py` (the datetime bookkeeping
fields `start_time`/`end_time` are set only outside the graph and are
omitted). -/
structure AgentState where
  workflow_id : Str
  created_at : Str
  persona_data : PyDict
  request_data : PyDict
  content_config : PyDict
  persona_analysis : PyDict
  strategy_plan : PyDict
  generated_content : PyDict
  qa_feedback : PyDict
  agent_logs : List PyDict
  current_stage : String
  errors : List ErrEntry
  warnings : List Str
  total_tokens_used : Nat
  total_cost : Rat

/-- `create_agent_state` (`base.py` lines 46-70); the generated workflow
id and timestamp are taken as parameters since they come from entropy and
the clock. -/
def create_agent_state (workflow_id created_at : Str)
    (request_data content_config : PyDict) : AgentState where
  workflow_id := workflow_id
  created_at := created_at
  persona_data := []
  request_data := request_data
  content_config := content_config
  persona_analysis := []
  strategy_plan := []
  generated_content := []
  qa_feedback := []
  agent_logs := []
  current_stage := "initialized"
  errors := []
  warnings := []
  total_tokens_used := 0
  total_cost := 0

/-- A partial state update as returned by a LangGraph node: only the keys
present in the returned dict are written to the state channels. -/
structure StateUpdate where
  persona_data : Option PyDict := none
  persona_analysis : Option PyDict := none
  strategy_plan : Option PyDict := none
  generated_content : Option PyDict := none
  qa_feedback : Option PyDict := none
  agent_logs : Option (List PyDict) := none
  current_stage : Option String := none
  errors : Option (List ErrEntry) := none
  warnings : Option (List Str) := none
  total_tokens_used : Option Nat := none

/-- The outcome of one stage execution: its partial update plus the number
of `_generate_response` LLM invocations it performed. -/
structure StageOut where
  update : StateUpdate
  llm_calls : Nat

/-- Merge a node's partial update into the state (LangGraph channel
write: absent keys keep their previous value). -/
def applyUpdate (s : AgentState) (u : StateUpdate) : AgentState where
  workflow_id := s.workflow_id
  created_at := s.created_at
  persona_data := u.persona_data.getD s.persona_data
  request_data := s.request_data
  content_config := s.content_config
  persona_analysis := u.persona_analysis.getD s.persona_analysis
  strategy_plan := u.strategy_plan.getD s.strategy_plan
  generated_content := u.generated_content.getD s.generated_content
  qa_feedback := u.qa_feedback.getD s.qa_feedback
  agent_logs := u.agent_logs.getD s.agent_logs
  current_stage := u.current_stage.getD s.current_stage
  errors := u.errors.getD s.errors
  warnings := u.warnings.getD s.warnings
  total_tokens_used := u.total_tokens_used.getD s.total_tokens_used
  total_cost := s.total_cost

/-! ## PersonaAgent (`persona_agent.py`) -/

namespace PersonaAgent

/-- `PersonaAgent._analyze_persona_context` (the prompt construction only
feeds the LLM oracle and does not influence state, so it is not
replayed).  Note that `persona_data.get('id')` reads the **pre-update**
state, whose `persona_data` is still the initial `{}`, so the metadata
`persona_id` is `None`.  The `except` clause catches only
`json.JSONDecodeError` and `ValueError`; an `IndexError` from the
extractor or a `TypeError` from item assignment on a non-dict value
propagates. -/
def analyze_persona_context (state : AgentState) (env : Env) :
    Except String PyDict :=
  let result := env.personaResponse
  if result.success then
    match extract_json_from_response_psc result.content with
    | .error e => .error e
    | .ok json_content =>
      if json_content = [] then
        .ok [("error", .s (str "Failed to parse analysis")),
             ("raw_content", .s result.content),
             ("tokens_used", .obj result.tokens)]
      else
        match jsonLoads json_content with
        | .ok (.obj analysis) =>
          .ok (dictInsert (dictInsert (dictInsert analysis
                "persona_id" ((dictGet state.persona_data "id").getD .null))
                "analysis_timestamp" (.s state.created_at))
                "tokens_used" (.obj result.tokens))
        | .ok _ => .error "TypeError: item assignment on non-dict"
        | .error _ =>
          .ok [("error", .s (str "Failed to parse analysis")),
               ("raw_content", .s result.content),
               ("tokens_used", .obj result.tokens)]
  else
    .ok [("error", .s (result.error.getD (str "Analysis failed"))),
         ("tokens_used", .obj result.tokens)]

/-- `PersonaAgent.execute` (`persona_agent.py` lines 18-51). -/
def execute (state : AgentState) (env : Env) : Except String StageOut :=
  match dictGet state.request_data "persona_id" with
  | none =>
    .ok ⟨{ errors := some (state.errors ++
            [⟨"PersonaAgent", str "No persona_id provided in request", env.now⟩]),
           current_stage := some "error" }, 0⟩
  | some pid =>
    if ¬ jvalTruthy pid then
      .ok ⟨{ errors := some (state.errors ++
              [⟨"PersonaAgent", str "No persona_id provided in request", env.now⟩]),
             current_stage := some "error" }, 0⟩
    else
      match env.get_persona_by_id (jvalToPyStr pid) with
      | none =>
        .ok ⟨{ errors := some (state.errors ++
                [⟨"PersonaAgent", str "Persona not found: " ++ jvalToPyStr pid, env.now⟩]),
               current_stage := some "error" }, 0⟩
      | some persona =>
        (analyze_persona_context state env).map fun analysis =>
          ⟨{ persona_data := some persona.dump,
             persona_analysis := some analysis,
             current_stage := some "persona_analysis" }, 1⟩

end PersonaAgent

/-! ## StrategyAgent (`strategy_agent.py`) -/

namespace StrategyAgent

/-- `StrategyAgent._create_fallback_strategy` (`strategy_agent.py` lines
177-200). -/
def create_fallback_strategy (persona_analysis request_data : PyDict) : PyDict :=
  let _ := persona_analysis
  let topic := match dictGet request_data "topic" with
    | some v => jvalToPyStr v
    | none => str "the topic"
  [("funnel_stage", .s (str "awareness")),
   ("recommended_angle", .s (str "Educational content about " ++ topic)),
   ("key_messages", .arr [.s (str "Address primary pain points"),
      .s (str "Provide actionable insights"),
      .s (str "Build trust and authority")]),
   ("content_structure", .arr [.s (str "Introduction"), .s (str "Problem"),
      .s (str "Solution"), .s (str "Benefits"), .s (str "CTA")]),
   ("cta_strategy", .obj [("type", .s (str "learn_more")),
      ("placement", .s (str "end of content")),
      ("message", .s (str "Learn more about solving this challenge"))]),
   ("tone_adjustments", .s (str "Professional and helpful")),
   ("engagement_hooks", .arr [.s (str "Question"), .s (str "Statistic")]),
   ("value_proposition", .s (str "Practical solutions for your challenges")),
   ("social_proof_types", .arr [.s (str "case studies")]),
   ("urgency_elements", .arr [.s (str "limited time insights")]),
   ("expected_outcomes", .arr [.s (str "educate"), .s (str "engage"),
      .s (str "generate interest")])]

/-- Default inserted for a missing required field of the parsed strategy
(`strategy_agent.py` lines 141-149). -/
def strategyFieldDefault (f : String) : JVal :=
  if f = "key_messages" then .arr [.s (str "Key message not specified")]
  else if f = "cta_strategy" then
    .obj [("type", .s (str "learn_more")), ("placement", .s (str "end")),
          ("message", .s (str "Learn more"))]
  else .s (str "Not specified for " ++ str f)

/-- The dict returned when strategy JSON parsing fails (`strategy_agent.py`
lines 164-170). -/
def strategyParseFailDict (state : AgentState) (result : LLMResult) : PyDict :=
  [("error", .s (str "Failed to parse strategy JSON")),
   ("fallback_strategy", .obj (create_fallback_strategy state.persona_analysis state.request_data)),
   ("raw_content", .s (result.content.take 500)),
   ("tokens_used", .obj result.tokens)]

/-- `StrategyAgent._create_content_strategy` (`strategy_agent.py` lines
69-175). -/
def create_content_strategy (state : AgentState) (env : Env) :
    Except String PyDict :=
  let result := env.strategyResponse
  if result.success then
    match extract_json_from_response_psc result.content with
    | .error e => .error e
    | .ok json_content =>
      if json_content = [] then .ok (strategyParseFailDict state result)
      else
        match jsonLoads json_content with
        | .ok (.obj strategy) =>
          let strategy := ["funnel_stage", "recommended_angle", "key_messages",
              "cta_strategy"].foldl
            (fun st f => if dictHasKey st f then st
                         else dictInsert st f (strategyFieldDefault f)) strategy
          .ok (dictInsert (dictInsert strategy
                "strategy_timestamp" (.s state.created_at))
                "tokens_used" (.obj result.tokens))
        | .ok _ => .error "TypeError: item assignment on non-dict"
        | .error _ => .ok (strategyParseFailDict state result)
  else
    .ok [("error", .s (result.error.getD (str "Strategy generation failed"))),
         ("tokens_used", .obj result.tokens)]

/-- `StrategyAgent.execute` (`strategy_agent.py` lines 16-39). -/
def execute (state : AgentState) (env : Env) : Except String StageOut :=
  if state.persona_analysis.isEmpty then
    .ok ⟨{ errors := some (state.errors ++
            [⟨"StrategyAgent", str "No persona analysis available", env.now⟩]),
           current_stage := some "error" }, 0⟩
  else
    (create_content_strategy state env).map fun plan =>
      ⟨{ strategy_plan := some plan, current_stage := some "strategy_planning" }, 1⟩

end StrategyAgent

/-! ## CreativeAgent (`creative_agent.py`) -/

namespace CreativeAgent

/-- `CreativeAgent._estimate_word_count`. -/
def estimate_word_count (text : Str) : Nat :=
  if text = [] then 0 else pyWordCount text

/-- `CreativeAgent._create_fallback_content` (`creative_agent.py` lines
338-360). -/
def create_fallback_content (state : AgentState) : PyDict :=
  let topic := match dictGet state.request_data "topic" with
    | some v => jvalToPyStr v
    | none => str "Your Topic"
  let lower := pyLower topic
  [("title", .s (str "Understanding " ++ topic ++ str ": A Guide")),
   ("subtitle", .s (str "Key insights and actionable strategies")),
   ("introduction", .s (str "In today's competitive landscape, understanding " ++
      lower ++ str " is crucial for success. This guide will provide you with practical insights and actionable strategies.")),
   ("main_content", .s (str "When it comes to " ++ lower ++
      str ", there are several key factors to consider. First, it's important to understand the fundamentals. Second, you need to develop a clear strategy. Finally, implementation and measurement are critical for success.")),
   ("key_points", .arr [.s (str "Understand the fundamentals"),
      .s (str "Develop a clear strategy"),
      .s (str "Focus on implementation"),
      .s (str "Measure and optimize results")]),
   ("call_to_action", .s (str "Ready to get started? Contact us to learn more about how we can help you succeed.")),
   ("meta_description", .s (str "Learn about " ++ lower ++
      str " with our comprehensive guide covering key strategies and practical implementation tips.")),
   ("tags", .arr [.s (pyReplace lower (str " ") (str "_")), .s (str "guide"),
      .s (str "strategy")]),
   ("word_count", .num 100),
   ("readability_notes", .s (str "Fallback content - basic structure provided"))]

/-- One line of the key-point scan of `_convert_text_to_json`
(`creative_agent.py` lines 116-126): bullet lines lose their first two
characters, numbered lines lose everything through the first `. `. -/
def lineToKeyPoint (l : Str) : Option Str :=
  let l := pyStrip l
  if (str "•").isPrefixOf l || (str "- ").isPrefixOf l then
    some (pyStrip (l.drop 2))
  else if (str "* ").isPrefixOf l then
    some (pyStrip (l.drop 2))
  else if (List.range 9).any (fun i => (str (toString (i + 1) ++ ". ")).isPrefixOf l) then
    some (afterFirst l (str ". "))
  else none

/-- `CreativeAgent._convert_text_to_json` (`creative_agent.py` lines
80-164). -/
def convert_text_to_json (text_content : Str) (state : AgentState) : PyDict :=
  if text_content = [] then create_fallback_content state
  else
    let lines := pySplit text_content (str "\n")
    let title := ((lines.take 10).findSome? (fun l =>
      let l := pyStrip l
      if (str "# ").isPrefixOf l then some (pyStrip (l.drop 2))
      else if (str "## ").isPrefixOf l then some (pyStrip (l.drop 3))
      else if (str "### ").isPrefixOf l then some (pyStrip (l.drop 4))
      else none)).getD (str "Generated Content")
    let paragraphs := ((pySplit text_content (str "\n\n")).map pyStrip).filter
      (fun p => p ≠ [] ∧ ¬ (str "#").isPrefixOf p)
    let introduction := paragraphs.headD (str "Generated introduction")
    let main_paragraphs := ((paragraphs.drop 1).filter
      (fun p => ¬ (str "#").isPrefixOf (pyStrip p))).map pyStrip
    let main_content := List.intercalate (str "\n\n") main_paragraphs
    let collected : List Str :=
      ((paragraphs.map (fun para => (pySplit para (str "\n")).filterMap lineToKeyPoint))).flatten
    let kp0 : JVal := .arr (collected.map .s)
    let kp1 : JVal :=
      if ¬ jvalTruthy kp0 ∧ ¬ state.strategy_plan.isEmpty then
        (dictGet state.strategy_plan "key_messages").getD
          (.arr [.s (str "Key insight 1"), .s (str "Key insight 2"),
                 .s (str "Key insight 3")])
      else kp0
    let kp2 : JVal :=
      if ¬ jvalTruthy kp1 then
        .arr [.s (str "Key insight from content"), .s (str "Important takeaway"),
              .s (str "Actionable advice")]
      else kp1
    let cta_strategy : JVal :=
      if ¬ state.strategy_plan.isEmpty then
        (dictGet state.strategy_plan "cta_strategy").getD (.obj [])
      else .obj []
    let call_to_action : JVal := (jGet cta_strategy "message").getD
      (.s (str "Ready to get started? Learn more about how we can help you succeed."))
    let topic := pyLower (match dictGet state.request_data "topic" with
      | some v => jvalToPyStr v
      | none => [])
    let keywords : JVal := (dictGet state.content_config "keywords").getD (.arr [])
    let tags : JVal :=
      if jvalTruthy keywords then jTake 3 keywords
      else .arr [.s (pyReplace topic (str " ") (str "_")), .s (str "guide"),
                 .s (str "strategy")]
    let word_count := estimate_word_count (introduction ++ [' '] ++ main_content)
    let topicRaw := match dictGet state.request_data "topic" with
      | some v => jvalToPyStr v
      | none => str "your topic"
    let meta_description :=
      if title.length > 150 then title.take 150 ++ str "..." else title
    [("title", .s title),
     ("subtitle", .s (str "A comprehensive guide to " ++ topicRaw)),
     ("introduction", .s introduction),
     ("main_content", .s main_content),
     ("key_points", jTake 5 kp2),
     ("call_to_action", call_to_action),
     ("meta_description", .s meta_description),
     ("tags", tags),
     ("word_count", .num word_count),
     ("estimated_read_time", .num (max 1 (pyRoundDiv word_count 200))),
     ("readability_notes", .s (str "Content converted from well-formatted text to JSON structure")),
     ("conversion_note", .s (str "Successfully extracted structured content from LLM response")),
     ("generation_timestamp", .s state.created_at),
     ("tokens_used", .obj []),
     ("model_used", .s (str "text_to_json_conversion"))]

/-- `CreativeAgent._generate_content` (`creative_agent.py` lines 167-301).
An `AttributeError` from calling `.get` on a non-dict parse result is not
caught by the `except (json.JSONDecodeError, ValueError)` handler and
propagates. -/
def generate_content (state : AgentState) (env : Env) : Except String PyDict :=
  let result := env.creativeResponse
  if result.success then
    let raw_content := result.content
    match extract_json_from_response_psc raw_content with
    | .error e => .error e
    | .ok json_content =>
      if json_content ≠ [] then
        match jsonLoads json_content with
        | .ok (.obj content) =>
          let full_content := jStrD content "introduction" ++ [' '] ++
            jStrD content "main_content"
          let actual_word_count := estimate_word_count full_content
          let content := dictInsert content "word_count" (.num actual_word_count)
          let content := dictInsert content "estimated_read_time"
            (.num (max 1 (pyRoundDiv actual_word_count 200)))
          let content := dictInsert content "generation_timestamp" (.s state.created_at)
          let content := dictInsert content "tokens_used" (.obj result.tokens)
          let content := dictInsert content "model_used"
            (.s (result.model_name.getD (str "unknown")))
          .ok content
        | .ok _ => .error "AttributeError: no attribute get"
        | .error _ => .ok (convert_text_to_json raw_content state)
      else .ok (convert_text_to_json raw_content state)
  else
    .ok [("error", .s (result.error.getD (str "Content generation failed"))),
         ("fallback_content", .obj (create_fallback_content state)),
         ("tokens_used", .obj result.tokens)]

/-- `CreativeAgent.execute` (`creative_agent.py` lines 16-47). -/
def execute (state : AgentState) (env : Env) : Except String StageOut :=
  if state.persona_analysis.isEmpty then
    .ok ⟨{ errors := some (state.errors ++
            [⟨"CreativeAgent", str "No persona analysis available", env.now⟩]),
           current_stage := some "error" }, 0⟩
  else if state.strategy_plan.isEmpty then
    .ok ⟨{ errors := some (state.errors ++
            [⟨"CreativeAgent", str "No strategy plan available", env.now⟩]),
           current_stage := some "error" }, 0⟩
  else
    (generate_content state env).map fun content_result =>
      ⟨{ generated_content := some content_result,
         current_stage := some "content_generation" }, 1⟩

end CreativeAgent

/-! ## QAAgent stage logic (`qa_agent.py`) -/

namespace QAAgent

/-- The dict returned when QA JSON parsing fails after a successful call
(`qa_agent.py` lines 192-198). -/
def qaParseFailDict (result : LLMResult) : PyDict :=
  [("error", .s (str "Failed to parse QA analysis")),
   ("quality_score", .num 70),
   ("needs_improvement", .bool false),
   ("raw_content", .s (result.content.take 500)),
   ("tokens_used", .obj result.tokens)]

/-- `QAAgent._analyze_content_quality` (`qa_agent.py` lines 106-205). -/
def analyze_content_quality (state : AgentState) (env : Env) :
    Except String PyDict :=
  let result := env.qaResponse
  if result.success then
    match extract_json_from_response result.content with
    | .error e => .error e
    | .ok json_content =>
      if json_content = [] then .ok (qaParseFailDict result)
      else
        match jsonLoads json_content with
        | .ok (.obj qa_analysis) =>
          .ok (dictInsert (dictInsert qa_analysis
                "qa_timestamp" (.s state.created_at))
                "tokens_used" (.obj result.tokens))
        | .ok _ => .error "TypeError: item assignment on non-dict"
        | .error _ => .ok (qaParseFailDict result)
  else
    .ok [("error", .s (result.error.getD (str "QA analysis failed"))),
         ("quality_score", .num 50),
         ("needs_improvement", .bool true),
         ("tokens_used", .obj result.tokens)]

/-- The dict returned when parsing of the improvement response fails
(`qa_agent.py` lines 299-304); the error text is the source's literal
(it is a plain string there, not an f-string). -/
def improveParseFailDict (result : LLMResult) : PyDict :=
  [("success", .bool false),
   ("error", .s (str "Failed to parse improved content\x7bstr(e)\x7d")),
   ("raw_content", .s (result.content.take 500)),
   ("tokens_used", .obj result.tokens)]

/-- `QAAgent._improve_content` (`qa_agent.py` lines 207-310), returning
the result dict together with the number of LLM calls it performed.
It consults `state["qa_feedback"]` — the state **before** this stage's
own update — for the improvement suggestions. -/
def improve_content (state : AgentState) (env : Env) :
    Except String (PyDict × Nat) :=
  if ¬ dictTruthy state.qa_feedback "improvement_suggestions" then
    .ok ([("success", .bool false),
          ("reason", .s (str "No improvement suggestions available"))], 0)
  else
    let result := env.improveResponse
    if result.success then
      match extract_json_from_response result.content with
      | .error e => .error e
      | .ok json_content =>
        if json_content = [] then .ok (improveParseFailDict result, 1)
        else
          let json_content := clean_json_string json_content
          match jsonLoads json_content with
          | .ok (.obj improved_content) =>
            let full_content := jStrD improved_content "introduction" ++ [' '] ++
              jStrD improved_content "main_content"
            let improved_content := dictInsert improved_content "word_count"
              (.num (if full_content = [] then 0 else pyWordCount full_content))
            .ok ([("success", .bool true),
                  ("improved_content", .obj improved_content),
                  ("tokens_used", .obj result.tokens)], 1)
          | .ok _ => .error "AttributeError: no attribute get"
          | .error _ => .ok (improveParseFailDict result, 1)
    else
      .ok ([("success", .bool false),
            ("error", .s (result.error.getD (str "Content improvement failed"))),
            ("tokens_used", .obj result.tokens)], 1)

/-- `QAAgent.execute` (`qa_agent.py` lines 16-60). -/
def execute (state : AgentState) (env : Env) : Except String StageOut :=
  if state.generated_content.isEmpty then
    .ok ⟨{ errors := some (state.errors ++
            [⟨"QAAgent", str "No generated content available for QA", env.now⟩]),
           current_stage := some "error" }, 0⟩
  else
    let warnings := state.warnings ++
      (if dictHasKey state.generated_content "error" then
        [str "Content generation had errors: " ++
          (match dictGet state.generated_content "error" with
           | some v => jvalToPyStr v
           | none => str "None")]
       else [])
    (analyze_content_quality state env).bind fun qa_result =>
      let base : StateUpdate :=
        { qa_feedback := some qa_result,
          current_stage := some "quality_assurance",
          warnings := some warnings }
      if dictTruthy qa_result "needs_improvement" ∧
         dictTruthy qa_result "improvement_suggestions" then
        (improve_content state env).map fun ic =>
          if dictTruthy ic.1 "success" then
            let updated_content := dictUpdate state.generated_content
              (match dictGet ic.1 "improved_content" with
               | some (.obj fs) => fs
               | _ => [])
            ⟨{ base with generated_content := some updated_content,
                         current_stage := some "completed" }, 1 + ic.2⟩
          else ⟨base, 1 + ic.2⟩
      else .ok ⟨{ base with current_stage := some "completed" }, 1⟩

end QAAgent

/-! ## Orchestrator (`orchestrator.py`)

`_initialize_workflow` adds, for every stage node, both a **static** edge
to the next node (`add_edge`) and a conditional branch
(`add_conditional_edges`) mapping `"error"` to `END`.  In the compiled
LangGraph Pregel program these are independent triggers: after a node
finishes, its static successor is triggered by the node's own completion
channel regardless of what the branch function selected, so the branch's
`"error" -> END` selection never prevents the next node from running.
The compiled graph therefore executes the four nodes strictly in
sequence, applying each returned partial update, whatever the `errors`
channel holds; an uncaught exception inside a node aborts the run (and is
converted to a failure bundle by `generate_content`'s top-level
`except`). -/

/-- `_should_continue_after_persona` (`orchestrator.py` lines 108-113). -/
def should_continue_after_persona (state : AgentState) : String :=
  if ¬ state.errors.isEmpty then "error" else "continue"

/-- `_should_continue_after_strategy` (`orchestrator.py` lines 115-120). -/
def should_continue_after_strategy (state : AgentState) : String :=
  if ¬ state.errors.isEmpty then "error" else "continue"

/-- `_should_continue_after_creative` (`orchestrator.py` lines 122-127). -/
def should_continue_after_creative (state : AgentState) : String :=
  if ¬ state.errors.isEmpty then "error" else "continue"

/-- One full run of the compiled workflow, also accumulating the total
number of LLM calls made across the four stages. -/
def runWorkflowStats (env : Env) (s0 : AgentState) :
    Except String (AgentState × Nat) :=
  match PersonaAgent.execute s0 env with
  | .error e => .error e
  | .ok r1 =>
    match StrategyAgent.execute (applyUpdate s0 r1.update) env with
    | .error e => .error e
    | .ok r2 =>
      match CreativeAgent.execute (applyUpdate (applyUpdate s0 r1.update) r2.update) env with
      | .error e => .error e
      | .ok r3 =>
        match QAAgent.execute (applyUpdate (applyUpdate (applyUpdate s0 r1.update) r2.update) r3.update) env with
        | .error e => .error e
        | .ok r4 =>
          .ok (applyUpdate (applyUpdate (applyUpdate (applyUpdate s0 r1.update) r2.update) r3.update) r4.update,
               r1.llm_calls + r2.llm_calls + r3.llm_calls + r4.llm_calls)

/-- The final state of one full run of the compiled workflow. -/
def runWorkflow (env : Env) (s0 : AgentState) : Except String AgentState :=
  (runWorkflowStats env s0).map (fun p => p.1)

/-- The `metrics` object of `_compile_results`. -/
structure Metrics where
  total_tokens_used : Nat
  estimated_cost : Rat
  quality_score : JVal
  agent_count : Nat
  warnings_count : Nat
  errors_count : Nat

/-- The result bundle of `_compile_results` (timestamps, which come from
the wall clock outside the graph, are omitted). -/
structure ResultBundle where
  success : Bool
  workflow_id : Str
  current_stage : String
  content : Option PyDict
  persona_analysis : Option PyDict
  strategy_plan : Option PyDict
  qa_feedback : Option PyDict
  metrics : Metrics
  agent_logs : List PyDict
  errors : List ErrEntry
  warnings : List Str

/-- `ContentOrchestrator._compile_results` (`orchestrator.py` lines
204-249). -/
def compile_results (state : AgentState) : ResultBundle :=
  let success := state.errors.length = 0
  let quality_score :=
    if ¬ state.qa_feedback.isEmpty then
      (dictGet state.qa_feedback "quality_score").getD (.num 0)
    else .num 0
  { success := success
    workflow_id := state.workflow_id
    current_stage := state.current_stage
    content := if success then some state.generated_content else none
    persona_analysis := if success then some state.persona_analysis else none
    strategy_plan := if success then some state.strategy_plan else none
    qa_feedback := if success then some state.qa_feedback else none
    metrics :=
      { total_tokens_used := state.total_tokens_used
        estimated_cost := (state.total_tokens_used : Rat) * (1 / 10000)
        quality_score := quality_score
        agent_count := ([state.persona_analysis, state.strategy_plan,
          state.generated_content, state.qa_feedback].filter
          (fun d => ¬ d.isEmpty)).length
        warnings_count := state.warnings.length
        errors_count := state.errors.length }
    agent_logs := state.agent_logs
    errors := state.errors
    warnings := state.warnings }

/-! ## Claim-side definitions

These follow the **spec's words**, not the source; they exist only so
that claims C4, C5 and C9 can be stated as written and compared with the
embedded code. -/

/-- Modelled from the spec (section 4.1, step 2 as the claim states it):
the inner content of the first fenced code block, with an optional
language tag, trimmed. -/
def specFencedBlock (s : Str) : Option Str :=
  match findSub s (str "```") with
  | none => none
  | some i =>
    let afterOpen := (s.drop (i + 3)).dropWhile Char.isAlpha
    match findSub afterOpen (str "```") with
    | none => none
    | some j => some (pyStrip (afterOpen.take j))

/-- Modelled from the spec (section 4.1): the four structural extraction
steps in the claimed priority order — fast path, fenced block, brace
span, identity. -/
def specStructuralExtract (content : Str) : Str :=
  let t := pyStrip content
  if (str "\x7b").isPrefixOf t ∧ (str "\x7d").isSuffixOf t then t
  else
    match specFencedBlock t with
    | some inner => inner
    | none =>
      match pyFindChar t '{', pyRFindChar t '}' with
      | some first, some last =>
        if first < last then (t.drop first).take (last + 1 - first) else t
      | _, _ => t

/-- Modelled from the spec (section 4.1, claim C5): normalization of smart
quotes/apostrophes, ellipses, en/em dashes, non-breaking spaces and
line/paragraph separators to ASCII, then stripping of C0/C1 control
characters. -/
def specNormalize (s : Str) : Str :=
  let s := pyReplace s (str "‘") (str "'")
  let s := pyReplace s (str "’") (str "'")
  let s := pyReplace s (str "“") (str "\"")
  let s := pyReplace s (str "”") (str "\"")
  let s := pyReplace s (str "…") (str "...")
  let s := pyReplace s (str "–") (str "-")
  let s := pyReplace s (str "—") (str "-")
  let s := pyReplace s (str "\u00a0") (str " ")
  let s := pyReplace s (str "\u2028") (str "\n")
  let s := pyReplace s (str "\u2029") (str "\n")
  s.filter (fun c => ¬ QAAgent.isCtrlC0C1 c)

/-- Modelled from the spec (section 4.4, claim C9): a bullet or numbered
list line with its **marker** stripped (for `•` the one-character marker
itself, for `- `/`* ` the two-character marker, for `1. `-`9. `
everything through the first `. `). -/
def specKeyPointOfLine (l : Str) : Option Str :=
  let l := pyStrip l
  if (str "• ").isPrefixOf l then some (pyStrip (l.drop 2))
  else if (str "•").isPrefixOf l then some (pyStrip (l.drop 1))
  else if (str "- ").isPrefixOf l then some (pyStrip (l.drop 2))
  else if (str "* ").isPrefixOf l then some (pyStrip (l.drop 2))
  else if (List.range 9).any (fun i => (str (toString (i + 1) ++ ". ")).isPrefixOf l) then
    some (afterFirst l (str ". "))
  else none

/-! ## Helper lemmas -/

theorem pyStrip_subset (s : Str) : pyStrip s ⊆ s := by
  intro c hc
  unfold pyStrip at hc
  rw [List.mem_reverse] at hc
  have h1 := (List.dropWhile_sublist (l := (s.dropWhile isPyWs).reverse) isPyWs).subset hc
  rw [List.mem_reverse] at h1
  exact (List.dropWhile_sublist isPyWs).subset h1

theorem take_drop_subset (s : Str) (i n : Nat) : (s.drop i).take n ⊆ s := by
  intro c hc
  exact (List.drop_sublist i s).subset ((List.take_sublist n (s.drop i)).subset hc)

theorem extract_psc_ok_subset (s out : Str)
    (h : extract_json_from_response_psc s = .ok out) : out ⊆ s := by
  simp only [extract_json_from_response_psc] at h
  split at h
  · cases h
    intro c hc
    cases hc
  · split at h
    · cases h
      exact pyStrip_subset s
    · split at h
      · cases h
      · split at h
        · split at h
          · cases h
            intro c hc
            exact pyStrip_subset s (take_drop_subset (pyStrip s) _ _ hc)
          · cases h
            exact pyStrip_subset s
        · cases h
          exact pyStrip_subset s

theorem dictHasKey_mem_iff (d : PyDict) (k : String) :
    dictHasKey d k = true ↔ ∃ p ∈ d, p.1 = k := by
  induction d with
  | nil => simp [dictHasKey]
  | cons p rest ih =>
    simp only [dictHasKey, Bool.or_eq_true, decide_eq_true_eq, ih, List.mem_cons]
    constructor
    · rintro (h | ⟨q, hq, hqk⟩)
      · exact ⟨p, Or.inl rfl, h⟩
      · exact ⟨q, Or.inr hq, hqk⟩
    · rintro ⟨q, hq | hq, hqk⟩
      · exact Or.inl (hq ▸ hqk)
      · exact Or.inr ⟨q, hq, hqk⟩

theorem dictGet_dictInsert_self (d : PyDict) (k : String) (v : JVal) :
    dictGet (dictInsert d k v) k = some v := by
  unfold dictInsert
  split
  · rename_i hhas
    induction d with
    | nil => simp [dictHasKey] at hhas
    | cons p rest ih =>
      simp only [dictHasKey, Bool.or_eq_true, decide_eq_true_eq] at hhas
      by_cases hp : p.1 = k
      · simp [dictGet, hp]
      · simp only [List.map_cons, if_neg hp, dictGet, hp, if_false]
        refine ih ?_
        rcases hhas with h | h
        · exact absurd h hp
        · exact h
  · induction d with
    | nil => simp [dictGet]
    | cons p rest ih =>
      rename_i hhas
      simp only [dictHasKey, Bool.or_eq_true, decide_eq_true_eq, not_or] at hhas
      simp only [List.cons_append, dictGet, if_neg hhas.1]
      exact ih (by simp [dictHasKey, hhas.2])

theorem dictGet_map_overwrite_ne (l : PyDict) (k k' : String) (v : JVal)
    (h : k' ≠ k) :
    dictGet (l.map (fun p => if p.1 = k then (k, v) else p)) k' = dictGet l k' := by
  induction l with
  | nil => rfl
  | cons p rest ih =>
    by_cases hp : p.1 = k
    · have hpk' : p.1 ≠ k' := by rw [hp]; exact Ne.symm h
      simp [dictGet, hp, Ne.symm h, hpk', ih]
    · by_cases hp' : p.1 = k'
      · simp [dictGet, hp, hp', h]
      · simp [dictGet, hp, hp', ih]

theorem dictGet_append_single_ne (l : PyDict) (k k' : String) (v : JVal)
    (h : k' ≠ k) : dictGet (l ++ [(k, v)]) k' = dictGet l k' := by
  induction l with
  | nil => simp [dictGet, Ne.symm h]
  | cons p rest ih =>
    by_cases hp' : p.1 = k'
    · simp [dictGet, hp']
    · simp [dictGet, hp', ih]

theorem dictGet_dictInsert_ne (d : PyDict) (k k' : String) (v : JVal)
    (h : k' ≠ k) : dictGet (dictInsert d k v) k' = dictGet d k' := by
  unfold dictInsert
  split
  · exact dictGet_map_overwrite_ne d k k' v h
  · exact dictGet_append_single_ne d k k' v h

/-- Mapping the overwrite function of `dictInsert` commutes with
searching for the key. -/
theorem find_map_overwrite (l : PyDict) (k : String) (v : JVal) :
    (l.map (fun p => if p.1 = k then (k, v) else p)).find? (fun p => p.1 = k)
      = (l.find? (fun p => p.1 = k)).map (fun p => if p.1 = k then (k, v) else p) := by
  induction l with
  | nil => simp
  | cons p rest ih =>
    by_cases hp : p.1 = k
    · simp [List.find?_cons, hp]
    · simp [List.find?_cons, hp, ih]

/-- The last binding that `dictInsert` leaves for its key holds the
inserted value. -/
theorem reverse_find_dictInsert (d : PyDict) (k : String) (v : JVal) :
    (dictInsert d k v).reverse.find? (fun p => p.1 = k) = some (k, v) := by
  unfold dictInsert
  split
  · rename_i hhas
    rw [← List.map_reverse, find_map_overwrite]
    have hex : ∃ p ∈ d.reverse, (fun p : String × JVal => decide (p.1 = k)) p = true := by
      rcases (dictHasKey_mem_iff d k).mp hhas with ⟨p, hp, hpk⟩
      exact ⟨p, List.mem_reverse.2 hp, by simpa using hpk⟩
    rcases List.find?_isSome.mpr hex |> Option.isSome_iff_exists.mp with ⟨q, hq⟩
    have hqk : q.1 = k := by simpa using List.find?_some hq
    rw [hq]
    simp [hqk]
  · simp [List.find?_append]

/-- `dictGet` after `dictUpdate`: the last binding of the update wins,
otherwise the original value is kept. -/
theorem dictGet_dictUpdate (d u : PyDict) (k : String) :
    dictGet (dictUpdate d u) k =
      match u.reverse.find? (fun p => p.1 = k) with
      | some p => some p.2
      | none => dictGet d k := by
  induction u generalizing d with
  | nil => simp [dictUpdate]
  | cons p u' ih =>
    have hstep : dictUpdate d (p :: u') = dictUpdate (dictInsert d p.1 p.2) u' := rfl
    rw [hstep, ih]
    rw [List.reverse_cons, List.find?_append]
    cases hfind : u'.reverse.find? (fun q => decide (q.1 = k)) with
    | some q => simp
    | none =>
      simp only [Option.none_orElse]
      by_cases hp : p.1 = k
      · subst hp
        simp [dictGet_dictInsert_self]
      · rw [dictGet_dictInsert_ne d p.1 k p.2 (fun e => hp e.symm)]
        simp [hp]

/-- Updating with a dict whose last `k`-binding was written by
`dictInsert` yields exactly the inserted value at `k`. -/
theorem dictGet_dictUpdate_dictInsert (d u : PyDict) (k : String) (v : JVal) :
    dictGet (dictUpdate d (dictInsert u k v)) k = some v := by
  rw [dictGet_dictUpdate, reverse_find_dictInsert]

theorem jTake_length (n : Nat) (v : JVal) (xs : List JVal)
    (h : jTake n v = .arr xs) : xs.length ≤ n := by
  cases v with
  | arr ys =>
    simp only [jTake] at h
    cases h
    simp [List.length_take_le]
  | null => cases h
  | bool b => cases h
  | num m => cases h
  | s l => cases h
  | obj fs => cases h

/-! ## Frame lemmas: no stage update writes `agent_logs` or
`total_tokens_used` -/

theorem persona_update_frame (s : AgentState) (env : Env) (r : StageOut)
    (h : PersonaAgent.execute s env = .ok r) :
    r.update.agent_logs = none ∧ r.update.total_tokens_used = none := by
  unfold PersonaAgent.execute at h
  split at h
  · cases h; exact ⟨rfl, rfl⟩
  · split at h
    · cases h; exact ⟨rfl, rfl⟩
    · split at h
      · cases h; exact ⟨rfl, rfl⟩
      · cases hx : PersonaAgent.analyze_persona_context s env with
        | ok a =>
          rw [hx] at h
          simp only [Except.map] at h
          cases h
          exact ⟨rfl, rfl⟩
        | error e =>
          rw [hx] at h
          simp [Except.map] at h

theorem strategy_update_frame (s : AgentState) (env : Env) (r : StageOut)
    (h : StrategyAgent.execute s env = .ok r) :
    r.update.agent_logs = none ∧ r.update.total_tokens_used = none := by
  unfold StrategyAgent.execute at h
  split at h
  · cases h; exact ⟨rfl, rfl⟩
  · cases hx : StrategyAgent.create_content_strategy s env with
    | ok a =>
      rw [hx] at h
      simp only [Except.map] at h
      cases h
      exact ⟨rfl, rfl⟩
    | error e =>
      rw [hx] at h
      simp [Except.map] at h

theorem creative_update_frame (s : AgentState) (env : Env) (r : StageOut)
    (h : CreativeAgent.execute s env = .ok r) :
    r.update.agent_logs = none ∧ r.update.total_tokens_used = none := by
  unfold CreativeAgent.execute at h
  split at h
  · cases h; exact ⟨rfl, rfl⟩
  · split at h
    · cases h; exact ⟨rfl, rfl⟩
    · cases hx : CreativeAgent.generate_content s env with
      | ok a =>
        rw [hx] at h
        simp only [Except.map] at h
        cases h
        exact ⟨rfl, rfl⟩
      | error e =>
        rw [hx] at h
        simp [Except.map] at h

theorem qa_update_frame (s : AgentState) (env : Env) (r : StageOut)
    (h : QAAgent.execute s env = .ok r) :
    r.update.agent_logs = none ∧ r.update.total_tokens_used = none := by
  unfold QAAgent.execute at h
  split at h
  · cases h; exact ⟨rfl, rfl⟩
  · cases hx : QAAgent.analyze_content_quality s env with
    | error e =>
      rw [hx] at h
      simp [Except.bind] at h
    | ok qa =>
      rw [hx] at h
      simp only [Except.bind] at h
      split at h
      · cases hy : QAAgent.improve_content s env with
        | error e =>
          rw [hy] at h
          simp [Except.map] at h
        | ok ic =>
          rw [hy] at h
          simp only [Except.map] at h
          cases h
          split
          · exact ⟨rfl, rfl⟩
          · exact ⟨rfl, rfl⟩
      · cases h
        exact ⟨rfl, rfl⟩

theorem applyUpdate_frame (s : AgentState) (u : StateUpdate)
    (h1 : u.agent_logs = none) (h2 : u.total_tokens_used = none) :
    (applyUpdate s u).agent_logs = s.agent_logs ∧
    (applyUpdate s u).total_tokens_used = s.total_tokens_used := by
  simp [applyUpdate, h1, h2]

/-- Through a whole run of the compiled workflow, `agent_logs` and
`total_tokens_used` keep their initial values: no stage ever writes
either channel. -/
theorem runWorkflowStats_frame (env : Env) (s0 sF : AgentState) (n : Nat)
    (h : runWorkflowStats env s0 = .ok (sF, n)) :
    sF.agent_logs = s0.agent_logs ∧
    sF.total_tokens_used = s0.total_tokens_used := by
  unfold runWorkflowStats at h
  split at h
  · exact Except.noConfusion h
  rename_i r1 h1
  split at h
  · exact Except.noConfusion h
  rename_i r2 h2
  split at h
  · exact Except.noConfusion h
  rename_i r3 h3
  split at h
  · exact Except.noConfusion h
  rename_i r4 h4
  cases h
  obtain ⟨a1, b1⟩ := persona_update_frame _ _ _ h1
  obtain ⟨a2, b2⟩ := strategy_update_frame _ _ _ h2
  obtain ⟨a3, b3⟩ := creative_update_frame _ _ _ h3
  obtain ⟨a4, b4⟩ := qa_update_frame _ _ _ h4
  obtain ⟨p1, q1⟩ := applyUpdate_frame s0 r1.update a1 b1
  obtain ⟨p2, q2⟩ := applyUpdate_frame (applyUpdate s0 r1.update) r2.update a2 b2
  obtain ⟨p3, q3⟩ := applyUpdate_frame (applyUpdate (applyUpdate s0 r1.update) r2.update) r3.update a3 b3
  obtain ⟨p4, q4⟩ := applyUpdate_frame (applyUpdate (applyUpdate (applyUpdate s0 r1.update) r2.update) r3.update) r4.update a4 b4
  constructor
  · rw [p4, p3, p2, p1]
  · rw [q4, q3, q2, q1]

deriving instance DecidableEq for Except

/-- The integer payload of a JSON value defaulting to `-1`; used to state
concrete claims decidably. -/
def jNumD (d : PyDict) (k : String) : Int :=
  match dictGet d k with
  | some (.num n) => n
  | _ => -1

/-! ## Concrete run scenarios used by the claim theorems -/

/-- A request whose persona id is absent from the store. -/
def reqMissing : PyDict :=
  [("persona_id", .s (str "missing")), ("topic", .s (str "MVP"))]

/-- A minimal content configuration. -/
def cfgBlog : PyDict := [("content_type", .s (str "blog_post"))]

/-- Environment in which the persona lookup fails (all LLM calls would
succeed, but none is ever reached). -/
def envNoPersona : Env where
  now := str "T0"
  get_persona_by_id := fun _ => none
  personaResponse := { success := true }
  strategyResponse := { success := true }
  creativeResponse := { success := true }
  qaResponse := { success := true }
  improveResponse := { success := true }

/-- The initial state of a run for `reqMissing`. -/
def sInit : AgentState := create_agent_state (str "wf") (str "TS") reqMissing cfgBlog

/-- Environment of a fully successful run: persona found, every stage
response parses cleanly, QA reports no improvement needed. -/
def envAllOK : Env where
  now := str "T0"
  get_persona_by_id := fun _ => some { dump := [("id", .s (str "p1"))], name := str "P" }
  personaResponse := { success := true, content := str "\x7b\"k\":1\x7d", tokens := [("total", .num 7)] }
  strategyResponse := { success := true, content := str "\x7b\"f\":2\x7d", tokens := [("total", .num 9)] }
  creativeResponse := { success := true, content := str "\x7b\"a\":3\x7d", tokens := [("total", .num 11)] }
  qaResponse := { success := true, content := str "\x7b\"q\":4\x7d" }
  improveResponse := { success := true }

/-- Initial state of a run whose persona id is found. -/
def sGood : AgentState := create_agent_state (str "wf") (str "TS")
  [("persona_id", .s (str "p1")), ("topic", .s (str "MVP"))] cfgBlog

/-- Extract the final state of a run that is known to succeed. -/
def okStateOf (r : Except String AgentState) (dflt : AgentState) : AgentState :=
  match r with
  | .ok s => s
  | .error _ => dflt

/-- The state reaching the QA stage of a run in which the three upstream
stages produced output (QA's own `qa_feedback` channel still holds its
initial `{}`). -/
def sPreQA : AgentState :=
  { sInit with
    persona_data := [("id", .s (str "p1"))],
    persona_analysis := [("k", .num 1)],
    strategy_plan := [("f", .num 2)],
    generated_content := [("title", .s (str "T"))],
    current_stage := "content_generation" }

/-- Environment in which the QA response asks for refinement and the
improvement response would parse perfectly. -/
def envQAImprove : Env :=
  { envNoPersona with
    qaResponse :=
      { success := true,
        content := str "\x7b\"needs_improvement\": true, \"improvement_suggestions\": [\"s1\"]\x7d" },
    improveResponse :=
      { success := true, content := str "\x7b\"title\": \"better\"\x7d" } }

/-- A state as `_improve_content` itself expects it (non-empty
`qa_feedback` with suggestions), for exercising the refinement merge
directly. -/
def sRefine : AgentState :=
  { sInit with
    generated_content := [("introduction", .s (str "hello world")),
                          ("main_content", .s (str "x"))],
    qa_feedback := [("improvement_suggestions", .arr [.s (str "s1")])] }

/-- Environment whose improvement response updates only `main_content`. -/
def envRefine : Env :=
  { envNoPersona with
    improveResponse :=
      { success := true, content := str "\x7b\"main_content\": \"a b c\"\x7d" } }

/-! ## Claim theorems -/

/-- Claim C1: after each stage, if `errors` gained a new entry the
workflow should transition to the error state and stop, with no
subsequent stage executing.  The code violates the "stops" part:
`_initialize_workflow` wires a static edge next to every conditional
branch, and in the compiled graph the static edge fires regardless of the
branch result.  In a run whose persona lookup fails, the branch function
selects `"error"`, yet Strategy, Creative and QA still execute — each
appending its own precondition error — so the final `errors` list carries
one entry per agent.  (No stage-output field is ever appended, so that
half of the claim holds.) -/
theorem claim_C1_theorem :
    (PersonaAgent.execute sInit envNoPersona).map
        (fun r => should_continue_after_persona (applyUpdate sInit r.update)) = .ok "error"
    ∧ (runWorkflow envNoPersona sInit).map
        (fun s => (s.errors.map (fun e : ErrEntry => e.agent), s.current_stage,
          s.persona_analysis.isEmpty, s.strategy_plan.isEmpty,
          s.generated_content.isEmpty, s.qa_feedback.isEmpty))
      = .ok (["PersonaAgent", "StrategyAgent", "CreativeAgent", "QAAgent"], "error",
             true, true, true, true) := by
  exact ⟨by decide, by decide⟩

/-- Claim C2: a stage with an empty required upstream input returns one
new `errors` entry and `current_stage = "error"` without an LLM call —
this stage-level half holds, as the first three conjuncts show.  The
run-level half fails: with a missing persona the final `errors` sequence
has four entries (one per stage), not exactly one, because the static
edges execute every stage anyway (zero LLM calls in total). -/
theorem claim_C2_theorem :
    (StrategyAgent.execute sInit envNoPersona).map
        (fun r => (r.update.errors, r.update.current_stage, r.update.strategy_plan.isNone, r.llm_calls))
      = .ok (some [⟨"StrategyAgent", str "No persona analysis available", str "T0"⟩],
             some "error", true, 0)
    ∧ (CreativeAgent.execute sInit envNoPersona).map
        (fun r => (r.update.errors, r.update.current_stage, r.update.generated_content.isNone, r.llm_calls))
      = .ok (some [⟨"CreativeAgent", str "No persona analysis available", str "T0"⟩],
             some "error", true, 0)
    ∧ (QAAgent.execute sInit envNoPersona).map
        (fun r => (r.update.errors, r.update.current_stage, r.update.qa_feedback.isNone, r.llm_calls))
      = .ok (some [⟨"QAAgent", str "No generated content available for QA", str "T0"⟩],
             some "error", true, 0)
    ∧ (runWorkflowStats envNoPersona sInit).map (fun p => (p.1.errors.length, p.2))
      = .ok (4, 0) := by
  exact ⟨by decide, by decide, by decide, by decide⟩

/-- Claim C3: when QA output has `needs_improvement = true` and non-empty
`improvement_suggestions`, the merge should apply on a successful parse
(or, on failure, the stage should still reach `"completed"`).  The code
violates this: `_improve_content` reads the suggestions from the
**pre-update** state, whose `qa_feedback` is still `{}`, so it returns
`success: False` without any LLM call; no merge ever happens in the
pipeline run, and because the success flag is false `current_stage`
stays `"quality_assurance"` instead of `"completed"`. -/
theorem claim_C3_theorem :
    (QAAgent.improve_content sPreQA envQAImprove).map
        (fun p => (dictTruthy p.1 "success", jStrD p.1 "reason", p.2))
      = .ok (false, str "No improvement suggestions available", 0)
    ∧ (QAAgent.execute sPreQA envQAImprove).map
        (fun r => (r.update.current_stage, r.update.generated_content.isNone, r.llm_calls))
      = .ok (some "quality_assurance", true, 1) := by
  exact ⟨by decide, by decide⟩

/-- Claim C4: extraction should return a fenced code block's inner
content at priority 2.  The code's fence pattern is the literal
six-backtick string with no capture group, so fenced content is never
extracted: a fenced JSON array comes back unchanged, where the claimed
algorithm (`specStructuralExtract`) returns the inner `[1,2]`.  The
claim's own example happens to work, but only through the brace-span
step, not the fence step. -/
theorem claim_C4_theorem :
    extract_json_from_response_psc (str "```json\n[1,2]\n```")
        = .ok (str "```json\n[1,2]\n```")
    ∧ specStructuralExtract (str "```json\n[1,2]\n```") = str "[1,2]"
    ∧ extract_json_from_response_psc (str "```json\n\x7b\"a\":1\x7d\n```")
        = .ok (str "\x7b\"a\":1\x7d") := by
  exact ⟨by decide, by decide, by decide⟩

/-- Claim C5, counterexample: extraction is claimed to normalize smart
typographic characters to ASCII before any structural step.  The
persona/strategy/creative extractor performs no normalization at all: an
object containing an ellipsis is returned with the ellipsis intact,
whereas the claimed pipeline (normalize, then the structural steps)
returns the ASCII form — the two outputs differ. -/
theorem claim_C5_counterexample :
    extract_json_from_response_psc (str "\x7b\"a\":\"…\"\x7d")
        = .ok (str "\x7b\"a\":\"…\"\x7d")
    ∧ specStructuralExtract (specNormalize (str "\x7b\"a\":\"…\"\x7d"))
        = str "\x7b\"a\":\"...\"\x7d"
    ∧ str "\x7b\"a\":\"…\"\x7d" ≠ str "\x7b\"a\":\"...\"\x7d" := by
  exact ⟨by decide, by decide, by decide⟩

/-- Claim C5 as amended: the persona/strategy/creative extractor rewrites
nothing — every character of its output occurs in its input; the QA
extractor's pre-extraction cleanup only removes `\r` and turns `\t` into
a space; and the ellipsis/dash/space normalization (with C0/C1 control
characters replaced by spaces, smart quotes untouched) lives only in
`_clean_json_string`, which runs **after** extraction and only in the
refinement path. -/
theorem claim_C5_theorem :
    (∀ s out, extract_json_from_response_psc s = .ok out → out ⊆ s)
    ∧ QAAgent.cleanupPre (str "a\rb\tc") = str "ab c"
    ∧ QAAgent.clean_json_string (str "x…–— \x01y") = str "x...--  y"
    ∧ QAAgent.clean_json_string (str "“x”’") = str "“x”’" := by
  exact ⟨extract_psc_ok_subset, by decide, by decide, by decide⟩

/-- Witness for claim C5's amended theorem at a concrete input: the
extractor output `"x…"` (with its ellipsis intact) is made of characters
of the input `" x… "`. -/
theorem claim_C5_witness : str "x…" ⊆ str " x… " :=
  claim_C5_theorem.1 (str " x… ") (str "x…") (by decide)

/-- Claim C6: extraction is claimed never to raise.  When the input
contains six consecutive backticks, the source's `re.search` on the
literal six-backtick pattern matches and `match.group(1)` raises
`IndexError` (the pattern has no capture group); no surrounding handler
catches it.  Both extractor variants exhibit the exception. -/
theorem claim_C6_theorem :
    extract_json_from_response_psc (str "``````") = .error "IndexError: no such group"
    ∧ QAAgent.extract_json_from_response (str "``````")
        = .error "IndexError: no such group" := by
  exact ⟨by decide, by decide⟩

/-- Claim C7, counterexample: `word_count` is claimed to be recomputed
from the **merged** record.  With an improvement response updating only
`main_content` (`"a b c"`), the code computes the word count from the
response alone (3), while the merged record — whose introduction
`"hello world"` survives the merge — counts 5 words. -/
theorem claim_C7_counterexample :
    (QAAgent.improve_content sRefine envRefine).map
        (fun p =>
          match dictGet p.1 "improved_content" with
          | some (.obj improved) =>
            let merged := dictUpdate sRefine.generated_content improved
            (jNumD merged "word_count",
             (pyWordCount (jStrD merged "introduction" ++ [' '] ++ jStrD merged "main_content") : Int))
          | _ => (0, 0))
      = .ok (3, 5)
    ∧ (3 : Int) ≠ 5 := by
  exact ⟨by decide, by decide⟩

/-- Claim C7 as amended: after a successful refinement parse, the merged
record's `word_count` equals the word count of the improvement
**response's** introduction and main content (absent keys counting as
empty), not of the merged record. -/
theorem claim_C7_theorem (state : AgentState) (env : Env) (jc : Str) (obj : PyDict)
    (hfb : dictTruthy state.qa_feedback "improvement_suggestions" = true)
    (hsucc : env.improveResponse.success = true)
    (hex : QAAgent.extract_json_from_response env.improveResponse.content = .ok jc)
    (hne : jc ≠ [])
    (hparse : jsonLoads (QAAgent.clean_json_string jc) = .ok (.obj obj)) :
    QAAgent.improve_content state env =
      .ok ([("success", .bool true),
            ("improved_content", .obj (dictInsert obj "word_count"
              (.num (pyWordCount (jStrD obj "introduction" ++ [' '] ++ jStrD obj "main_content"))))),
            ("tokens_used", .obj env.improveResponse.tokens)], 1)
    ∧ dictGet (dictUpdate state.generated_content
          (dictInsert obj "word_count"
            (.num (pyWordCount (jStrD obj "introduction" ++ [' '] ++ jStrD obj "main_content")))))
        "word_count"
      = some (.num (pyWordCount (jStrD obj "introduction" ++ [' '] ++ jStrD obj "main_content"))) := by
  have hfull : jStrD obj "introduction" ++ [' '] ++ jStrD obj "main_content" ≠ [] := by
    simp
  constructor
  · simp [QAAgent.improve_content, hfb, hsucc, hex, hne, hparse, hfull]
  · exact dictGet_dictUpdate_dictInsert state.generated_content obj "word_count" _

/-- Witness for claim C7's amended theorem at the concrete refinement
scenario of the counterexample. -/
theorem claim_C7_witness :
    QAAgent.improve_content sRefine envRefine =
      .ok ([("success", .bool true),
            ("improved_content", .obj (dictInsert [("main_content", .s (str "a b c"))] "word_count"
              (.num (pyWordCount (jStrD [("main_content", .s (str "a b c"))] "introduction" ++ [' '] ++
                jStrD [("main_content", .s (str "a b c"))] "main_content"))))),
            ("tokens_used", .obj envRefine.improveResponse.tokens)], 1)
    ∧ dictGet (dictUpdate sRefine.generated_content
          (dictInsert [("main_content", .s (str "a b c"))] "word_count"
            (.num (pyWordCount (jStrD [("main_content", .s (str "a b c"))] "introduction" ++ [' '] ++
              jStrD [("main_content", .s (str "a b c"))] "main_content")))))
        "word_count"
      = some (.num (pyWordCount (jStrD [("main_content", .s (str "a b c"))] "introduction" ++ [' '] ++
          jStrD [("main_content", .s (str "a b c"))] "main_content"))) :=
  claim_C7_theorem sRefine envRefine
    (str "\x7b\"main_content\": \"a b c\"\x7d")
    [("main_content", .s (str "a b c"))] rfl rfl rfl (by decide) rfl

/-- Claim C8, counterexample: every stage execution is claimed to append
exactly one `agent_logs` entry.  In a fully successful run all four
stages execute (all four output fields are non-empty and the run ends
`"completed"`), yet `agent_logs` is empty — zero entries instead of the
claimed four.  (`_execute_with_metrics`, the only code that would append,
is never invoked by the workflow nodes.) -/
theorem claim_C8_counterexample :
    (runWorkflow envAllOK sGood).map
        (fun s => (s.current_stage, s.errors.length, s.agent_logs.length,
          [s.persona_analysis.isEmpty, s.strategy_plan.isEmpty,
           s.generated_content.isEmpty, s.qa_feedback.isEmpty]))
      = .ok ("completed", 0, 0, [false, false, false, false])
    ∧ (0 : Nat) ≠ 4 := by
  exact ⟨by decide, by decide⟩

/-- Claim C8 as amended: no stage execution ever appends to `agent_logs`;
the list keeps its initial value (empty in every real run) across every
run of the workflow, whatever the environment does. -/
theorem claim_C8_theorem (env : Env) (s0 sF : AgentState)
    (h : runWorkflow env s0 = .ok sF) : sF.agent_logs = s0.agent_logs := by
  unfold runWorkflow at h
  cases hx : runWorkflowStats env s0 with
  | error e => rw [hx] at h; exact Except.noConfusion h
  | ok p =>
    rw [hx] at h
    simp only [Except.map] at h
    cases h
    exact (runWorkflowStats_frame env s0 p.1 p.2 (by rw [hx])).1

/-- Witness for claim C8's amended theorem on the concrete successful
run. -/
theorem claim_C8_witness :
    (okStateOf (runWorkflow envAllOK sGood) sGood).agent_logs = sGood.agent_logs :=
  claim_C8_theorem envAllOK sGood (okStateOf (runWorkflow envAllOK sGood) sGood) rfl

/-- Claim C9, counterexample: key points are claimed to be the bullet
lines with their markers stripped.  For the bullet line `"•x"` the code
strips **two** characters (`line[2:]` after a one-character marker),
yielding the empty string where the claim requires `"x"`. -/
theorem claim_C9_counterexample :
    dictGet (CreativeAgent.convert_text_to_json (str "•x") sInit) "key_points"
        = some (.arr [.s (str "")])
    ∧ specKeyPointOfLine (str "•x") = some (str "x")
    ∧ str "" ≠ str "x" :=
  ⟨rfl, by decide, by decide⟩

/-- Claim C9 as amended: the converter's title, introduction and key
points behave as claimed on the cited example; a `•` bullet line loses
its marker **and the following character** (`line[2:]`); and `key_points`
is always capped at 5 entries. -/
theorem claim_C9_theorem :
    (dictGet (CreativeAgent.convert_text_to_json
        (str "# My Title\n\nIntro para.\n\nBody para.\n\n- point one\n- point two") sInit)
        "title" = some (.s (str "My Title"))
     ∧ dictGet (CreativeAgent.convert_text_to_json
        (str "# My Title\n\nIntro para.\n\nBody para.\n\n- point one\n- point two") sInit)
        "introduction" = some (.s (str "Intro para."))
     ∧ dictGet (CreativeAgent.convert_text_to_json
        (str "# My Title\n\nIntro para.\n\nBody para.\n\n- point one\n- point two") sInit)
        "key_points" = some (.arr [.s (str "point one"), .s (str "point two")]))
    ∧ (∀ l : Str, (str "•").isPrefixOf (pyStrip l) = true →
        CreativeAgent.lineToKeyPoint l = some (pyStrip ((pyStrip l).drop 2)))
    ∧ (∀ (text : Str) (state : AgentState) (xs : List JVal),
        dictGet (CreativeAgent.convert_text_to_json text state) "key_points"
          = some (.arr xs) → xs.length ≤ 5) := by
  refine ⟨⟨rfl, rfl, rfl⟩, ?_, ?_⟩
  · intro l hl
    unfold CreativeAgent.lineToKeyPoint
    simp [hl]
  · intro text state xs h
    unfold CreativeAgent.convert_text_to_json at h
    split at h
    · simp only [CreativeAgent.create_fallback_content] at h
      simp [dictGet] at h
      subst h
      decide
    · simp [dictGet] at h
      exact jTake_length 5 _ xs h

/-- Witness for claim C9's amended theorem at concrete inputs. -/
theorem claim_C9_witness :
    CreativeAgent.lineToKeyPoint (str "•x") = some (pyStrip ((pyStrip (str "•x")).drop 2))
    ∧ ([JVal.s (str "")] : List JVal).length ≤ 5 :=
  ⟨claim_C9_theorem.2.1 (str "•x") (by decide),
   claim_C9_theorem.2.2 (str "•x") sInit [.s (str "")] rfl⟩

/-- Claim C10: no stage update ever writes `total_tokens_used`, so the
final state keeps the initial 0 and every compiled result bundle reports
`metrics.total_tokens_used = 0` and `metrics.estimated_cost = 0.0`,
however many LLM calls succeeded and whatever token counts their
responses carried. -/
theorem claim_C10_theorem (env : Env) (s0 sF : AgentState)
    (h0 : s0.total_tokens_used = 0)
    (h : runWorkflow env s0 = .ok sF) :
    sF.total_tokens_used = 0
    ∧ (compile_results sF).metrics.total_tokens_used = 0
    ∧ (compile_results sF).metrics.estimated_cost = 0 := by
  have hpres : sF.total_tokens_used = s0.total_tokens_used := by
    unfold runWorkflow at h
    cases hx : runWorkflowStats env s0 with
    | error e => rw [hx] at h; exact Except.noConfusion h
    | ok p =>
      rw [hx] at h
      simp only [Except.map] at h
      cases h
      exact (runWorkflowStats_frame env s0 p.1 p.2 (by rw [hx])).2
  have hz : sF.total_tokens_used = 0 := by rw [hpres, h0]
  refine ⟨hz, ?_, ?_⟩ <;> simp [compile_results, hz]

/-- Witness for claim C10 on the concrete fully successful run (four
successful LLM calls with non-zero reported tokens, yet tokens reported
as 0 and cost as 0). -/
theorem claim_C10_witness :
    (okStateOf (runWorkflow envAllOK sGood) sGood).total_tokens_used = 0
    ∧ (compile_results (okStateOf (runWorkflow envAllOK sGood) sGood)).metrics.total_tokens_used = 0
    ∧ (compile_results (okStateOf (runWorkflow envAllOK sGood) sGood)).metrics.estimated_cost = 0 :=
  claim_C10_theorem envAllOK sGood (okStateOf (runWorkflow envAllOK sGood) sGood) rfl rfl

end TargetScriptAI